import Mathlib

set_option linter.unusedVariables false

/-!
Formal model of the adaptive PDF compression subsystem of the PDFTools
repository. Pure numeric logic is embedded over exact rationals; the
external render/encode engine is modelled as an oracle mapping a
rendering configuration to the bytes it would produce. Two shipped
revisions of the module are embedded: namespace Part000 models the file
src/unnamed/part_000 and namespace PdfServiceTs models
src/services/pdfService.ts.
-/

/-- Model of JavaScript Math.round for the rational values arising here:
round half toward positive infinity. -/
def jsRound (x : ℚ) : ℤ := ⌊x + 1/2⌋

/-- Model of Number(x.toFixed(2)) and parseFloat(x.toFixed(2)) for the
nonnegative values arising here: round to two decimal places. -/
def toFixed2 (x : ℚ) : ℚ := (jsRound (x * 100) : ℚ) / 100

/-- The three named compression levels. -/
inductive CompressionLevel
  | extreme
  | recommended
  | less
deriving DecidableEq

/-- The AdaptiveConfig record shared by both revisions. -/
structure AdaptiveConfig where
  scale : ℚ
  quality : ℚ
  projectedDPI : ℤ
deriving DecidableEq

theorem jsRound_le (x : ℚ) : (jsRound x : ℚ) ≤ x + 1/2 :=
  Int.floor_le _

theorem lt_jsRound (x : ℚ) : x - 1/2 < (jsRound x : ℚ) := by
  have h := Int.lt_floor_add_one (x + 1/2)
  unfold jsRound
  linarith

/-- The two-decimal rounding moves a value by at most 1/200. -/
theorem toFixed2_sub_abs_le (x : ℚ) : |toFixed2 x - x| ≤ 1/200 := by
  have h1 : (jsRound (x * 100) : ℚ) ≤ x * 100 + 1/2 := jsRound_le _
  have h2 : x * 100 - 1/2 < (jsRound (x * 100) : ℚ) := lt_jsRound _
  rw [abs_le]
  unfold toFixed2
  constructor <;> [linarith; linarith]

/-- Values at distance at most one have jsRound values at distance at
most one. -/
theorem jsRound_le_add_one (x y : ℚ) (h : x - y ≤ 1) :
    jsRound x ≤ jsRound y + 1 := by
  have hle : x + 1/2 ≤ (y + 1/2) + 1 := by linarith
  have h2 := Int.floor_le_floor hle
  rwa [Int.floor_add_one] at h2

theorem jsRound_sub_natAbs_le (x y : ℚ) (h : |x - y| ≤ 1) :
    (jsRound x - jsRound y).natAbs ≤ 1 := by
  have hd := abs_le.mp h
  have hup : jsRound x ≤ jsRound y + 1 := jsRound_le_add_one x y hd.2
  have hdown : jsRound y ≤ jsRound x + 1 := jsRound_le_add_one y x (by linarith [hd.1])
  omega

namespace Part000

/-- Embedding of getAdaptiveConfig from src/unnamed/part_000 lines
447-472: fixed bands per level, damped when the document is text heavy,
results rounded to two decimals, DPI projected from the undamped-rounded
scale. -/
def getAdaptiveConfig (level : CompressionLevel) (isTextHeavy : Bool) :
    AdaptiveConfig :=
  let scale : ℚ :=
    match level with
    | .extreme => 0.8
    | .recommended => 1.4
    | .less => 2.0
  let quality : ℚ :=
    match level with
    | .extreme => 0.4
    | .recommended => 0.6
    | .less => 0.8
  let scale := if isTextHeavy then scale * 0.85 else scale
  let quality := if isTextHeavy then quality - 0.1 else quality
  { scale := toFixed2 scale
    quality := toFixed2 quality
    projectedDPI := jsRound (scale * 72) }

/-- The scale computed by getInterpolatedConfig in part_000 before the
final two-decimal rounding. -/
def interpolatedScaleRaw (value : ℚ) (isTextHeavy : Bool) : ℚ :=
  let minScale : ℚ := 0.6
  let maxScale : ℚ := 2.0
  let t := value / 100
  let scale := minScale + (maxScale - minScale) * t
  if isTextHeavy then scale * 0.9 else scale

/-- The quality computed by getInterpolatedConfig in part_000 before the
final two-decimal rounding. -/
def interpolatedQualityRaw (value : ℚ) : ℚ :=
  let minQuality : ℚ := 0.3
  let maxQuality : ℚ := 0.9
  let t := value / 100
  minQuality + (maxQuality - minQuality) * t

/-- Embedding of getInterpolatedConfig from src/unnamed/part_000 lines
474-493: linear interpolation of scale and quality over the slider,
scale damped by 0.9 when text heavy, DPI projected from the unrounded
scale. -/
def getInterpolatedConfig (value : ℚ) (isTextHeavy : Bool) :
    AdaptiveConfig :=
  { scale := toFixed2 (interpolatedScaleRaw value isTextHeavy)
    quality := toFixed2 (interpolatedQualityRaw value)
    projectedDPI := jsRound (interpolatedScaleRaw value isTextHeavy * 72) }

end Part000

namespace PdfServiceTs

/-- Embedding of getAdaptiveConfig from src/services/pdfService.ts lines
500-515: a target-DPI table with scale derived as min(1, targetDPI/144);
the text-heavy flag is accepted but unused in this revision. -/
def getAdaptiveConfig (level : CompressionLevel) (isTextHeavy : Bool) :
    AdaptiveConfig :=
  let targetDPI : ℤ :=
    match level with
    | .extreme => 72
    | .recommended => 144
    | .less => 200
  { scale := min 1.0 ((targetDPI : ℚ) / 144)
    quality :=
      match level with
      | .extreme => 0.5
      | .recommended => 0.75
      | .less => 0.9
    projectedDPI := targetDPI }

/-- Embedding of getInterpolatedConfig from src/services/pdfService.ts
lines 517-527: the slider interpolates a DPI between 72 and 300 and the
scale is derived as min(1, dpi/144); the text-heavy flag is unused. -/
def getInterpolatedConfig (sliderValue : ℚ) (isTextHeavy : Bool) :
    AdaptiveConfig :=
  let minDPI : ℚ := 72
  let maxDPI : ℚ := 300
  let dpi := minDPI + (sliderValue / 100) * (maxDPI - minDPI)
  { scale := min 1.0 (dpi / 144)
    quality := 0.5 + sliderValue / 200
    projectedDPI := jsRound dpi }

/-- Status component of a compression result in the pdfService.ts
revision, which only ever returns success or blocked. -/
inductive CompressionStatus
  | success
  | blocked
deriving DecidableEq

/-- The meta record of the pdfService.ts revision. Faithful to the
source, it has exactly three fields: compressedSize, projectedDPI and
strategyUsed; in particular, no iteration count exists in it. -/
structure CompressionMeta where
  compressedSize : ℕ
  projectedDPI : ℤ
  strategyUsed : String
deriving DecidableEq

/-- The result record of the pdfService.ts revision. -/
structure CompressionResult where
  data : List ℕ
  meta : CompressionMeta
  status : CompressionStatus

/-- The input of a compression request in the pdfService.ts revision:
the original bytes of the file and its page count. -/
structure CompressInput where
  orig : List ℕ
  numPages : ℕ

/-- A finished run of the pdfService.ts revision: the returned result
plus the number of page render calls performed. -/
structure CompressRun where
  result : CompressionResult
  renderCalls : ℕ

/-- Embedding of compressPDFAdaptive from src/services/pdfService.ts
lines 573-639: resolve the config (custom takes precedence, the level
resolver is called with isTextHeavy false), block when safety is not
overridden and projectedDPI < 72, otherwise render every page once at
scale config.scale * 1.5 and quality config.quality, serialize, and
return the serialized bytes unconditionally with the label Adaptive
Rasterization. The oracle saveOut gives the bytes newPdf.save would
produce for the document rendered at a scale and quality. -/
def compressPDFAdaptive (saveOut : ℚ → ℚ → List ℕ)
    (inp : CompressInput) (level : CompressionLevel)
    (overrideSafety : Bool) (customConfig : Option AdaptiveConfig) :
    CompressRun :=
  let config := customConfig.getD (getAdaptiveConfig level false)
  if overrideSafety = false ∧ config.projectedDPI < 72 then
    { result :=
        { data := []
          meta :=
            { compressedSize := 0
              projectedDPI := config.projectedDPI
              strategyUsed := "Blocked (Low DPI)" }
          status := .blocked }
      renderCalls := 0 }
  else
    let saved := saveOut (config.scale * 1.5) config.quality
    { result :=
        { data := saved
          meta :=
            { compressedSize := saved.length
              projectedDPI := config.projectedDPI
              strategyUsed := "Adaptive Rasterization" }
          status := .success }
      renderCalls := inp.numPages }

end PdfServiceTs

namespace Part000

/-- Status component of a CompressionResult. -/
inductive CompressionStatus
  | success
  | blocked
  | error
deriving DecidableEq

/-- The meta record in a CompressionResult of part_000. -/
structure CompressionMeta where
  originalSize : ℕ
  compressedSize : ℕ
  effectiveScale : ℚ
  effectiveQuality : ℚ
  iterations : ℕ
  strategyUsed : String
  projectedDPI : ℤ

/-- The CompressionResult record of part_000, with byte buffers
modelled as lists of bytes. -/
structure CompressionResult where
  data : List ℕ
  status : CompressionStatus
  meta : CompressionMeta

/-- The input of a compression request: the original bytes of the file,
its page count and the text-heavy classification that analyzePDF
produced for it. -/
structure CompressInput where
  orig : List ℕ
  numPages : ℕ
  isTextHeavy : Bool

/-- State threaded through the multi-pass ladder: the current best
bytes, the current scale and quality variables, the strategy label, and
the list of scale-quality pairs at which full rasterization passes were
performed. -/
structure LadderState where
  resultBytes : List ℕ
  scale : ℚ
  quality : ℚ
  strategy : String
  passes : List (ℚ × ℚ)

/-- Model of the JavaScript test strategy.includes applied to the
substring Pass. -/
def strategyMentionsPass (s : String) : Bool :=
  s.toList.tails.any (fun t => "Pass".toList.isPrefixOf t)

/-- The escalation ladder of compressPDFAdaptive in part_000 lines
575-606: pass 1, then either the aggressive pass 2 with its own safety
re-check when pass 1 failed to shrink the file and no custom config was
supplied, or the squeeze pass when the level is extreme and pass 1
only reached 80 percent of the original size. The oracle passOut gives
the bytes performCompressionPass would produce at a scale and
quality. -/
def runLadder (passOut : ℚ → ℚ → List ℕ) (orig : List ℕ)
    (level : CompressionLevel) (ignoreSafety : Bool) (noCustom : Bool)
    (scale quality : ℚ) : LadderState :=
  let pass1 := passOut scale quality
  if noCustom = true ∧ orig.length ≤ pass1.length then
    let aggressiveScale := scale * 0.7
    let aggressiveQuality := max 0.3 (quality - 0.2)
    if ignoreSafety = false ∧ aggressiveScale * 72 < 90 then
      { resultBytes := pass1, scale := scale, quality := quality
        strategy := "Pass 2 Unsafe (Skipped)"
        passes := [(scale, quality)] }
    else
      let pass2 := passOut aggressiveScale aggressiveQuality
      if pass2.length < orig.length then
        { resultBytes := pass2, scale := aggressiveScale
          quality := aggressiveQuality
          strategy := "Adaptive Fallback"
          passes := [(scale, quality), (aggressiveScale, aggressiveQuality)] }
      else
        { resultBytes := orig, scale := scale, quality := quality
          strategy := "No Reduction Possible"
          passes := [(scale, quality), (aggressiveScale, aggressiveQuality)] }
  else if noCustom = true ∧ level = .extreme ∧
      (orig.length : ℚ) * 0.8 < (pass1.length : ℚ) then
    let squeezeScale := scale * 0.8
    if ignoreSafety = true ∨ 90 ≤ squeezeScale * 72 then
      let pass2 := passOut squeezeScale quality
      if pass2.length < pass1.length then
        { resultBytes := pass2, scale := squeezeScale, quality := quality
          strategy := "Adaptive Squeeze"
          passes := [(scale, quality), (squeezeScale, quality)] }
      else
        { resultBytes := pass1, scale := scale, quality := quality
          strategy := "First Pass"
          passes := [(scale, quality), (squeezeScale, quality)] }
    else
      { resultBytes := pass1, scale := scale, quality := quality
        strategy := "First Pass"
        passes := [(scale, quality)] }
  else
    { resultBytes := pass1, scale := scale, quality := quality
      strategy := "First Pass"
      passes := [(scale, quality)] }

/-- A finished compression run: the returned result plus
instrumentation recording which full passes were rasterized and how
many page render calls that took (one call per page per pass). -/
structure CompressRun where
  result : CompressionResult
  passes : List (ℚ × ℚ)
  renderCalls : ℕ

/-- Embedding of compressPDFAdaptive from src/unnamed/part_000 lines
531-637: resolve the config (custom takes precedence), run the safety
gate before any rasterization, run the ladder, then apply the final
guard substituting the original bytes whenever no candidate is strictly
smaller than the original. -/
def compressPDFAdaptive (passOut : ℚ → ℚ → List ℕ) (inp : CompressInput)
    (level : CompressionLevel) (ignoreSafety : Bool)
    (customConfig : Option AdaptiveConfig) : CompressRun :=
  let fileSize := inp.orig.length
  let cfg := customConfig.getD (getAdaptiveConfig level inp.isTextHeavy)
  if ignoreSafety = false ∧ cfg.projectedDPI < 90 then
    { result :=
        { data := []
          status := .blocked
          meta :=
            { originalSize := fileSize, compressedSize := 0
              effectiveScale := cfg.scale, effectiveQuality := cfg.quality
              iterations := 0, strategyUsed := "Safety Block"
              projectedDPI := cfg.projectedDPI } }
      passes := [], renderCalls := 0 }
  else
    let st := runLadder passOut inp.orig level ignoreSafety
      customConfig.isNone cfg.scale cfg.quality
    if fileSize ≤ st.resultBytes.length then
      { result :=
          { data := inp.orig
            status := .success
            meta :=
              { originalSize := fileSize, compressedSize := fileSize
                effectiveScale := 0, effectiveQuality := 0
                iterations := 2, strategyUsed := "Aborted (Safety Lock)"
                projectedDPI := jsRound (st.scale * 72) } }
        passes := st.passes
        renderCalls := st.passes.length * inp.numPages }
    else
      { result :=
          { data := st.resultBytes
            status := .success
            meta :=
              { originalSize := fileSize
                compressedSize := st.resultBytes.length
                effectiveScale := toFixed2 st.scale
                effectiveQuality := toFixed2 st.quality
                iterations := if strategyMentionsPass st.strategy then 1 else 2
                strategyUsed := st.strategy
                projectedDPI := jsRound (st.scale * 72) } }
        passes := st.passes
        renderCalls := st.passes.length * inp.numPages }

end Part000

namespace Part000

/-- The content profile produced by analyzePDF. -/
structure ContentProfile where
  isTextHeavy : Bool
  pageCount : ℕ
deriving DecidableEq

/-- Abstraction of a loaded document as far as analyzePDF observes it:
its page count and, for each 1-indexed page, the number of text
fragments the extraction primitive reports on it. -/
structure PdfTextDoc where
  numPages : ℕ
  textItems : ℕ → ℕ

/-- Embedding of analyzePDF, identical in src/unnamed/part_000 lines
42-66 and src/services/pdfService.ts lines 38-62. The input is an
Except value: error stands for a failure of loading or text
extraction, which the catch clause maps to the default profile. -/
def analyzePDF (input : Except Unit PdfTextDoc) : ContentProfile :=
  match input with
  | .error _ => { isTextHeavy := false, pageCount := 0 }
  | .ok pdf =>
    let maxPagesToCheck := min pdf.numPages 3
    let totalTextItems :=
      ((List.range maxPagesToCheck).map (fun k => pdf.textItems (k + 1))).sum
    { isTextHeavy :=
        decide ((20 : ℚ) < (totalTextItems : ℚ) / (maxPagesToCheck : ℚ))
      pageCount := pdf.numPages }

end Part000

namespace Part000

/-- Embedding of calculateProjectedFileSize from src/unnamed/part_000
lines 639-655: extrapolate the whole-document size from the base64
payload of the page-1 data URL, add per-page and fixed overhead
constants, then clamp against the original size with a five percent
margin. -/
def calculateProjectedFileSize (page1DataUrl : String) (pageCount : ℕ)
    (originalFileSize : ℕ) (isTextHeavy : Bool) : ℤ :=
  let head := "data:image/jpeg;base64,"
  let rawBytes : ℤ :=
    ⌊((page1DataUrl.length : ℚ) - (head.length : ℚ)) * 0.75⌋
  let totalImageSize : ℤ := rawBytes * (pageCount : ℤ)
  let overhead : ℤ := 2048 * (pageCount : ℤ) + 5120
  let estimatedRasterSize : ℤ := totalImageSize + overhead
  if (originalFileSize : ℤ) ≤ estimatedRasterSize then
    (originalFileSize : ℤ)
  else
    min ⌊((estimatedRasterSize : ℚ) * 1.05)⌋ (originalFileSize : ℤ)

end Part000

/-- C3 counterexample: at sliderValue 4 with isTextHeavy false, the
returned config stores scale 0.66 (the raw scale 0.656 rounded to two
decimals) but projectedDPI 47, computed from the raw scale, while
round(0.66 * 72) is 48. So the claimed invariant relating projectedDPI
to the stored scale field fails. -/
theorem dpi_consistency_counterexample :
    (Part000.getInterpolatedConfig 4 false).projectedDPI = 47 ∧
    jsRound ((Part000.getInterpolatedConfig 4 false).scale * 72) = 48 ∧
    ¬ ((Part000.getInterpolatedConfig 4 false).projectedDPI =
        jsRound ((Part000.getInterpolatedConfig 4 false).scale * 72)) := by
  norm_num [Part000.getInterpolatedConfig, Part000.interpolatedScaleRaw,
    toFixed2, jsRound]

/-- C3 (amended): in the part_000 revision, every config returned by
the level resolver satisfies projectedDPI = round(scale * 72) for the
stored scale field, and every config returned by the slider resolver
satisfies projectedDPI = round(s * 72) for the raw interpolated scale
s, of which the stored scale field is the two-decimal rounding, with
the stored projectedDPI within one of round(scale * 72) computed from
the stored field. In the pdfService.ts revision the invariant fails at
every input of both resolvers: projectedDPI is the target or
interpolated DPI while the scale is capped at 1.0, so projectedDPI
never equals round(scale * 72). -/
theorem dpi_consistency_amended :
    (∀ (level : CompressionLevel) (heavy : Bool),
      (Part000.getAdaptiveConfig level heavy).projectedDPI =
        jsRound ((Part000.getAdaptiveConfig level heavy).scale * 72)) ∧
    (∀ (value : ℚ) (heavy : Bool),
      (Part000.getInterpolatedConfig value heavy).projectedDPI =
        jsRound (Part000.interpolatedScaleRaw value heavy * 72) ∧
      ((Part000.getInterpolatedConfig value heavy).projectedDPI -
          jsRound ((Part000.getInterpolatedConfig value heavy).scale * 72)).natAbs
        ≤ 1) ∧
    (∀ (level : CompressionLevel) (heavy : Bool),
      (PdfServiceTs.getAdaptiveConfig level heavy).projectedDPI ≠
        jsRound ((PdfServiceTs.getAdaptiveConfig level heavy).scale * 72)) ∧
    (∀ (value : ℚ) (heavy : Bool), 0 ≤ value → value ≤ 100 →
      (PdfServiceTs.getInterpolatedConfig value heavy).projectedDPI ≠
        jsRound ((PdfServiceTs.getInterpolatedConfig value heavy).scale * 72)) := by
  refine ⟨?_, ?_, ?_, ?_⟩
  · intro level heavy
    cases level <;> cases heavy <;>
      norm_num [Part000.getAdaptiveConfig, toFixed2, jsRound]
  · intro value heavy
    refine ⟨rfl, ?_⟩
    have hfix := toFixed2_sub_abs_le (Part000.interpolatedScaleRaw value heavy)
    simp only [Part000.getInterpolatedConfig]
    apply jsRound_sub_natAbs_le
    have h1 : Part000.interpolatedScaleRaw value heavy * 72 -
        toFixed2 (Part000.interpolatedScaleRaw value heavy) * 72 =
        (Part000.interpolatedScaleRaw value heavy -
          toFixed2 (Part000.interpolatedScaleRaw value heavy)) * 72 := by
      ring
    rw [h1, abs_mul, abs_sub_comm]
    have h72 : |(72 : ℚ)| = 72 := by norm_num
    rw [h72]
    linarith [hfix]
  · intro level heavy
    cases level <;>
      norm_num [PdfServiceTs.getAdaptiveConfig, jsRound, min_def]
  · intro value heavy h0 h100 hEq
    simp only [PdfServiceTs.getInterpolatedConfig] at hEq
    rw [show (1.0 : ℚ) = 1 from by norm_num] at hEq
    set d : ℚ := 72 + value / 100 * (300 - 72) with hd
    have hdlo : (72 : ℚ) ≤ d := by
      rw [hd]
      nlinarith
    by_cases hc : d < 145/2
    · have hd144 : d / 144 ≤ 1 := by linarith
      rw [min_eq_right hd144] at hEq
      rw [show d / 144 * 72 = d / 2 by ring] at hEq
      have h36 : jsRound (d / 2) = 36 := by
        unfold jsRound
        rw [Int.floor_eq_iff]
        constructor <;> push_cast <;> linarith
      have h72d : (72 : ℤ) ≤ jsRound d := by
        apply Int.le_floor.mpr
        push_cast
        linarith
      rw [h36] at hEq
      omega
    · push_neg at hc
      have h73 : (73 : ℤ) ≤ jsRound d := by
        apply Int.le_floor.mpr
        push_cast
        linarith
      have hmle : min (1 : ℚ) (d / 144) * 72 ≤ 72 := by
        have hm1 : min (1 : ℚ) (d / 144) ≤ 1 := min_le_left _ _
        nlinarith
      have hle72 : jsRound (min (1 : ℚ) (d / 144) * 72) ≤ 72 := by
        have hfl := Int.floor_le_floor
          (show min (1 : ℚ) (d / 144) * 72 + 1/2 ≤ 72 + 1/2 by linarith)
        have h725 : ⌊(72 : ℚ) + 1/2⌋ = 72 := by norm_num
        unfold jsRound
        omega
      omega

/-- C3 witness: the pdfService.ts slider-resolver part of the amended
claim instantiated at slider value 50, where projectedDPI is 186 but
round(scale * 72) is 72. -/
theorem dpi_consistency_amended_witness :
    (PdfServiceTs.getInterpolatedConfig 50 false).projectedDPI ≠
      jsRound ((PdfServiceTs.getInterpolatedConfig 50 false).scale * 72) :=
  dpi_consistency_amended.2.2.2 50 false (by norm_num) (by norm_num)

/-- C6 counterexample: in the pdfService.ts revision getAdaptiveConfig
ignores isTextHeavy, so at level Recommended the text-heavy scale
equals the non-text-heavy scale instead of being strictly smaller. -/
theorem text_heavy_damping_counterexample :
    (PdfServiceTs.getAdaptiveConfig .recommended true).scale =
      (PdfServiceTs.getAdaptiveConfig .recommended false).scale ∧
    ¬ ((PdfServiceTs.getAdaptiveConfig .recommended true).scale <
        (PdfServiceTs.getAdaptiveConfig .recommended false).scale) :=
  ⟨rfl, lt_irrefl _⟩

/-- C6 (amended): in the part_000 revision, for every compression
level the text-heavy preset has strictly smaller scale, damped by a
factor between 0.85 and 0.9 of the non-text-heavy scale, and its
quality is reduced, but by a smaller amount than the scale reduction.
The pdfService.ts revision ignores the flag entirely: its level
resolver returns identical configs for every text-heavy value. -/
theorem text_heavy_damping :
    (∀ level : CompressionLevel,
      (Part000.getAdaptiveConfig level true).scale <
        (Part000.getAdaptiveConfig level false).scale ∧
      0.85 * (Part000.getAdaptiveConfig level false).scale ≤
        (Part000.getAdaptiveConfig level true).scale ∧
      (Part000.getAdaptiveConfig level true).scale ≤
        0.9 * (Part000.getAdaptiveConfig level false).scale ∧
      (Part000.getAdaptiveConfig level true).quality <
        (Part000.getAdaptiveConfig level false).quality ∧
      (Part000.getAdaptiveConfig level false).quality -
          (Part000.getAdaptiveConfig level true).quality <
        (Part000.getAdaptiveConfig level false).scale -
          (Part000.getAdaptiveConfig level true).scale) ∧
    (∀ (level : CompressionLevel) (h1 h2 : Bool),
      PdfServiceTs.getAdaptiveConfig level h1 =
        PdfServiceTs.getAdaptiveConfig level h2) := by
  constructor
  · intro level
    cases level <;> norm_num [Part000.getAdaptiveConfig, toFixed2, jsRound]
  · intro level h1 h2
    rfl

/-- C8 counterexample: in the pdfService.ts revision the Recommended
and Less presets share the capped scale 1.0, so the claimed strict
scale ordering fails there. -/
theorem level_presets_counterexample :
    (PdfServiceTs.getAdaptiveConfig .recommended false).scale = 1 ∧
    (PdfServiceTs.getAdaptiveConfig .less false).scale = 1 ∧
    ¬ ((PdfServiceTs.getAdaptiveConfig .recommended false).scale <
        (PdfServiceTs.getAdaptiveConfig .less false).scale) := by
  refine ⟨?_, ?_, ?_⟩ <;>
    norm_num [PdfServiceTs.getAdaptiveConfig, min_def]

/-- C8 (amended): in the part_000 revision, for each fixed text-heavy
flag the three level presets are strictly ordered in aggressiveness:
scale, quality and projected DPI all increase strictly from Extreme to
Recommended to Less. In the pdfService.ts revision the ordering holds
weakly for scale and strictly for quality and DPI, but Recommended and
Less share scale 1.0, so the scale ordering is not strict. -/
theorem level_presets_strictly_ordered :
    (∀ heavy : Bool,
      (Part000.getAdaptiveConfig .extreme heavy).scale <
        (Part000.getAdaptiveConfig .recommended heavy).scale ∧
      (Part000.getAdaptiveConfig .recommended heavy).scale <
        (Part000.getAdaptiveConfig .less heavy).scale ∧
      (Part000.getAdaptiveConfig .extreme heavy).quality <
        (Part000.getAdaptiveConfig .recommended heavy).quality ∧
      (Part000.getAdaptiveConfig .recommended heavy).quality <
        (Part000.getAdaptiveConfig .less heavy).quality ∧
      (Part000.getAdaptiveConfig .extreme heavy).projectedDPI <
        (Part000.getAdaptiveConfig .recommended heavy).projectedDPI ∧
      (Part000.getAdaptiveConfig .recommended heavy).projectedDPI <
        (Part000.getAdaptiveConfig .less heavy).projectedDPI) ∧
    (∀ heavy : Bool,
      (PdfServiceTs.getAdaptiveConfig .extreme heavy).scale ≤
        (PdfServiceTs.getAdaptiveConfig .recommended heavy).scale ∧
      (PdfServiceTs.getAdaptiveConfig .recommended heavy).scale ≤
        (PdfServiceTs.getAdaptiveConfig .less heavy).scale ∧
      (PdfServiceTs.getAdaptiveConfig .recommended heavy).scale =
        (PdfServiceTs.getAdaptiveConfig .less heavy).scale ∧
      (PdfServiceTs.getAdaptiveConfig .extreme heavy).quality <
        (PdfServiceTs.getAdaptiveConfig .recommended heavy).quality ∧
      (PdfServiceTs.getAdaptiveConfig .recommended heavy).quality <
        (PdfServiceTs.getAdaptiveConfig .less heavy).quality ∧
      (PdfServiceTs.getAdaptiveConfig .extreme heavy).projectedDPI <
        (PdfServiceTs.getAdaptiveConfig .recommended heavy).projectedDPI ∧
      (PdfServiceTs.getAdaptiveConfig .recommended heavy).projectedDPI <
        (PdfServiceTs.getAdaptiveConfig .less heavy).projectedDPI) := by
  constructor
  · intro heavy
    cases heavy <;> norm_num [Part000.getAdaptiveConfig, toFixed2, jsRound]
  · intro heavy
    norm_num [PdfServiceTs.getAdaptiveConfig, min_def]

/-- C10 counterexample: the two shipped revisions of the level resolver
disagree already at level Extreme with isTextHeavy false: part_000
returns scale 0.8, quality 0.4 and DPI 58 while pdfService.ts returns
scale 0.5, quality 0.5 and DPI 72. -/
theorem resolver_revisions_counterexample :
    Part000.getAdaptiveConfig .extreme false ≠
      PdfServiceTs.getAdaptiveConfig .extreme false ∧
    Part000.getAdaptiveConfig .extreme false =
      { scale := 0.8, quality := 0.4, projectedDPI := 58 } ∧
    PdfServiceTs.getAdaptiveConfig .extreme false =
      { scale := 0.5, quality := 0.5, projectedDPI := 72 } := by
  refine ⟨?_, ?_, ?_⟩ <;>
    norm_num [Part000.getAdaptiveConfig, PdfServiceTs.getAdaptiveConfig,
      toFixed2, jsRound, AdaptiveConfig.mk.injEq]

/-- C10 (amended): the two revisions of the config resolvers are not
extensionally equal; they disagree at every input: the level resolvers
return different configs for every level and text-heavy flag, and the
slider resolvers return different configs for every slider value in
[0, 100] and text-heavy flag (their quality fields alone always differ
by at least about 0.1). -/
theorem resolver_revisions_disagree :
    (∀ (level : CompressionLevel) (heavy : Bool),
      Part000.getAdaptiveConfig level heavy ≠
        PdfServiceTs.getAdaptiveConfig level heavy) ∧
    (∀ (v : ℚ) (heavy : Bool), 0 ≤ v → v ≤ 100 →
      Part000.getInterpolatedConfig v heavy ≠
        PdfServiceTs.getInterpolatedConfig v heavy) := by
  constructor
  · intro level heavy
    cases level <;> cases heavy <;>
      norm_num [Part000.getAdaptiveConfig, PdfServiceTs.getAdaptiveConfig,
        toFixed2, jsRound, AdaptiveConfig.mk.injEq]
  · intro v heavy h0 h100 hEq
    have hq := congrArg AdaptiveConfig.quality hEq
    simp only [Part000.getInterpolatedConfig, PdfServiceTs.getInterpolatedConfig]
      at hq
    have hraw : Part000.interpolatedQualityRaw v = 0.3 + 0.006 * v := by
      unfold Part000.interpolatedQualityRaw
      ring
    have hfix := toFixed2_sub_abs_le (Part000.interpolatedQualityRaw v)
    have hbound := (abs_le.mp hfix).2
    rw [hq] at hbound
    rw [hraw] at hbound
    linarith

/-- C10 witness: the amended disagreement instantiated at slider value
50 with isTextHeavy false. -/
theorem resolver_revisions_disagree_witness :
    Part000.getInterpolatedConfig 50 false ≠
      PdfServiceTs.getInterpolatedConfig 50 false :=
  resolver_revisions_disagree.2 50 false (by norm_num) (by norm_num)

/-- Helper: under an oracle none of whose outputs is strictly smaller
than the original bytes, the ladder never produces a byte buffer
strictly smaller than the original. -/
theorem runLadder_length_ge (passOut : ℚ → ℚ → List ℕ) (orig : List ℕ)
    (level : CompressionLevel) (ign noCustom : Bool) (scale quality : ℚ)
    (hpass : ∀ s q : ℚ, orig.length ≤ (passOut s q).length) :
    orig.length ≤
      (Part000.runLadder passOut orig level ign noCustom scale quality).resultBytes.length := by
  simp only [Part000.runLadder]
  split_ifs <;> first | exact hpass _ _ | exact le_refl _

/-- Oracle whose serialized output is two bytes, longer than a
one-byte original. -/
def psGrowOracle : ℚ → ℚ → List ℕ := fun _ _ => [1, 2]

/-- A one-byte input document with one page for the pdfService.ts
revision. -/
def psOneByte : PdfServiceTs.CompressInput :=
  { orig := [0], numPages := 1 }

/-- C1 counterexample: the pdfService.ts revision of compressPDFAdaptive
returns Success with the transcoded payload and
compressedSize = saved byte length unconditionally; with a serialized
output of two bytes on a one-byte original it reports a compressedSize
and a payload strictly larger than the original file. -/
theorem compress_never_larger_counterexample :
    (PdfServiceTs.compressPDFAdaptive psGrowOracle psOneByte .recommended false
        none).result.status = .success ∧
    psOneByte.orig.length <
      (PdfServiceTs.compressPDFAdaptive psGrowOracle psOneByte .recommended false
        none).result.meta.compressedSize ∧
    psOneByte.orig.length <
      (PdfServiceTs.compressPDFAdaptive psGrowOracle psOneByte .recommended false
        none).result.data.length := by
  refine ⟨?_, ?_, ?_⟩ <;>
    norm_num [PdfServiceTs.compressPDFAdaptive, PdfServiceTs.getAdaptiveConfig,
      psGrowOracle, psOneByte, min_def]

/-- C1 (amended): in the part_000 revision, whenever compressPDFAdaptive
returns a Success result, the reported compressedSize and the length of
the returned payload are at most the byte length of the original file;
the pdfService.ts revision instead returns the serialized transcoded
bytes unconditionally on Success, with compressedSize equal to their
length, so its output can exceed the original size. -/
theorem compress_success_never_larger :
    (∀ (passOut : ℚ → ℚ → List ℕ) (inp : Part000.CompressInput)
        (level : CompressionLevel) (ign : Bool) (cc : Option AdaptiveConfig),
      (Part000.compressPDFAdaptive passOut inp level ign cc).result.status =
        .success →
      (Part000.compressPDFAdaptive passOut inp level ign cc).result.meta.compressedSize ≤
        inp.orig.length ∧
      (Part000.compressPDFAdaptive passOut inp level ign cc).result.data.length ≤
        inp.orig.length) ∧
    (∀ (saveOut : ℚ → ℚ → List ℕ) (inp : PdfServiceTs.CompressInput)
        (level : CompressionLevel) (ov : Bool) (cc : Option AdaptiveConfig),
      (PdfServiceTs.compressPDFAdaptive saveOut inp level ov cc).result.status =
        .success →
      (PdfServiceTs.compressPDFAdaptive saveOut inp level ov cc).result.data =
        saveOut ((cc.getD (PdfServiceTs.getAdaptiveConfig level false)).scale * 1.5)
          (cc.getD (PdfServiceTs.getAdaptiveConfig level false)).quality ∧
      (PdfServiceTs.compressPDFAdaptive saveOut inp level ov cc).result.meta.compressedSize =
        (PdfServiceTs.compressPDFAdaptive saveOut inp level ov cc).result.data.length) := by
  constructor
  · intro passOut inp level ign cc hs
    simp only [Part000.compressPDFAdaptive] at *
    split_ifs at * <;> simp_all <;> omega
  · intro saveOut inp level ov cc hs
    simp only [PdfServiceTs.compressPDFAdaptive] at *
    split_ifs at *
    all_goals simp_all

/-- Oracle used by concrete witnesses: every pass produces an empty
byte buffer. -/
def emptyOracle : ℚ → ℚ → List ℕ := fun _ _ => []

/-- A one-byte input document with one page, not text heavy. -/
def tinyInput : Part000.CompressInput :=
  { orig := [0], numPages := 1, isTextHeavy := false }

/-- C1 witness: a concrete part_000 Success run at level Recommended
whose compressed size does not exceed the original size. -/
theorem compress_success_never_larger_witness :
    (Part000.compressPDFAdaptive emptyOracle tinyInput .recommended false
        none).result.status = .success ∧
    (Part000.compressPDFAdaptive emptyOracle tinyInput .recommended false
        none).result.meta.compressedSize ≤ tinyInput.orig.length := by
  have hs : (Part000.compressPDFAdaptive emptyOracle tinyInput .recommended false
      none).result.status = .success := by
    norm_num [Part000.compressPDFAdaptive, Part000.runLadder,
      Part000.getAdaptiveConfig, emptyOracle, tinyInput, toFixed2, jsRound]
  exact ⟨hs, (compress_success_never_larger.1 emptyOracle tinyInput .recommended
    false none hs).1⟩

/-- Oracle whose serialized output is three fixed bytes, not smaller
than a one-byte original. -/
def psFlatOracle : ℚ → ℚ → List ℕ := fun _ _ => [5, 6, 7]

/-- A one-byte input document with one page for the pdfService.ts
revision, used by the C2 counterexample. -/
def psSmallInput : PdfServiceTs.CompressInput :=
  { orig := [9], numPages := 1 }

/-- C2 counterexample: in the pdfService.ts revision, when the single
pass fails to shrink the file (three serialized bytes against a
one-byte original) the function still returns the transcoded bytes as
a Success labeled Adaptive Rasterization, not the original bytes under
an abort label with compressedSize equal to the original size. -/
theorem no_reduction_path_counterexample :
    psSmallInput.orig.length ≤
      (PdfServiceTs.compressPDFAdaptive psFlatOracle psSmallInput .recommended
        false none).result.data.length ∧
    (PdfServiceTs.compressPDFAdaptive psFlatOracle psSmallInput .recommended
        false none).result.status = .success ∧
    (PdfServiceTs.compressPDFAdaptive psFlatOracle psSmallInput .recommended
        false none).result.data ≠ psSmallInput.orig ∧
    (PdfServiceTs.compressPDFAdaptive psFlatOracle psSmallInput .recommended
        false none).result.meta.compressedSize ≠ psSmallInput.orig.length ∧
    (PdfServiceTs.compressPDFAdaptive psFlatOracle psSmallInput .recommended
        false none).result.meta.strategyUsed = "Adaptive Rasterization" := by
  refine ⟨?_, ?_, ?_, ?_, ?_⟩ <;>
    norm_num [PdfServiceTs.compressPDFAdaptive, PdfServiceTs.getAdaptiveConfig,
      psFlatOracle, psSmallInput, min_def]

/-- C2 (amended): in the part_000 revision, when the safety gate does
not block and no compression pass produces output strictly smaller
than the original file, the result is Success, its payload is exactly
the original untouched bytes, its compressedSize equals the original
size and its strategy label is the explicit abort label. The
pdfService.ts revision has no such no-reduction path: every Success it
returns carries the serialized transcoded bytes under the label
Adaptive Rasterization, whatever their size. -/
theorem compress_no_reduction_returns_original :
    (∀ (passOut : ℚ → ℚ → List ℕ) (inp : Part000.CompressInput)
        (level : CompressionLevel) (ign : Bool) (cc : Option AdaptiveConfig),
      (∀ s q : ℚ, inp.orig.length ≤ (passOut s q).length) →
      ¬(ign = false ∧
        (cc.getD (Part000.getAdaptiveConfig level inp.isTextHeavy)).projectedDPI < 90) →
      (Part000.compressPDFAdaptive passOut inp level ign cc).result.status =
        .success ∧
      (Part000.compressPDFAdaptive passOut inp level ign cc).result.data =
        inp.orig ∧
      (Part000.compressPDFAdaptive passOut inp level ign cc).result.meta.compressedSize =
        inp.orig.length ∧
      (Part000.compressPDFAdaptive passOut inp level ign cc).result.meta.strategyUsed =
        "Aborted (Safety Lock)") ∧
    (∀ (saveOut : ℚ → ℚ → List ℕ) (inp : PdfServiceTs.CompressInput)
        (level : CompressionLevel) (ov : Bool) (cc : Option AdaptiveConfig),
      (PdfServiceTs.compressPDFAdaptive saveOut inp level ov cc).result.status =
        .success →
      (PdfServiceTs.compressPDFAdaptive saveOut inp level ov cc).result.data =
        saveOut ((cc.getD (PdfServiceTs.getAdaptiveConfig level false)).scale * 1.5)
          (cc.getD (PdfServiceTs.getAdaptiveConfig level false)).quality ∧
      (PdfServiceTs.compressPDFAdaptive saveOut inp level ov cc).result.meta.strategyUsed =
        "Adaptive Rasterization") := by
  constructor
  · intro passOut inp level ign cc hpass hgate
    have hlen := runLadder_length_ge passOut inp.orig level ign cc.isNone
      (cc.getD (Part000.getAdaptiveConfig level inp.isTextHeavy)).scale
      (cc.getD (Part000.getAdaptiveConfig level inp.isTextHeavy)).quality hpass
    simp only [Part000.compressPDFAdaptive]
    rw [if_neg hgate, if_pos hlen]
    exact ⟨rfl, rfl, rfl, rfl⟩
  · intro saveOut inp level ov cc hs
    simp only [PdfServiceTs.compressPDFAdaptive] at *
    split_ifs at *
    all_goals simp_all

/-- Oracle used by the C2 witness: every pass produces five bytes. -/
def inflatingOracle : ℚ → ℚ → List ℕ := fun _ _ => [1, 2, 3, 4, 5]

/-- A two-byte input document with one page, not text heavy. -/
def twoByteInput : Part000.CompressInput :=
  { orig := [7, 7], numPages := 1, isTextHeavy := false }

/-- C2 witness: a concrete part_000 run in which every pass inflates
the file, so the original bytes come back under the abort label. -/
theorem compress_no_reduction_returns_original_witness :
    (Part000.compressPDFAdaptive inflatingOracle twoByteInput .recommended false
        none).result.data = twoByteInput.orig ∧
    (Part000.compressPDFAdaptive inflatingOracle twoByteInput .recommended false
        none).result.meta.strategyUsed = "Aborted (Safety Lock)" := by
  have h := compress_no_reduction_returns_original.1 inflatingOracle twoByteInput
    .recommended false none
    (by intro s q; simp [inflatingOracle, twoByteInput])
    (by norm_num [Part000.getAdaptiveConfig, toFixed2, jsRound, twoByteInput])
  exact ⟨h.2.1, h.2.2.2⟩

/-- A custom config whose projected DPI of 50 sits below the safety
floor. -/
def lowDPIConfig : AdaptiveConfig :=
  { scale := 1.0, quality := 0.5, projectedDPI := 50 }

/-- A one-byte input document with one page for the pdfService.ts
revision, used by the C4 counterexample. -/
def psTinyInput : PdfServiceTs.CompressInput :=
  { orig := [3], numPages := 1 }

/-- C4 counterexample: a concrete Blocked run of the pdfService.ts
revision whose complete meta record is exactly compressedSize 0,
projectedDPI 50 and the label Blocked (Low DPI). The meta of this
cited revision has no iterations field at all, so the Blocked result
does not report zero iterations as the claim states. -/
theorem blocked_meta_has_no_iterations :
    (PdfServiceTs.compressPDFAdaptive emptyOracle psTinyInput .recommended false
        (some lowDPIConfig)).result.status = .blocked ∧
    (PdfServiceTs.compressPDFAdaptive emptyOracle psTinyInput .recommended false
        (some lowDPIConfig)).result.meta =
      { compressedSize := 0, projectedDPI := 50,
        strategyUsed := "Blocked (Low DPI)" } := by
  refine ⟨?_, ?_⟩ <;>
    norm_num [PdfServiceTs.compressPDFAdaptive, lowDPIConfig,
      PdfServiceTs.CompressionMeta.mk.injEq]

/-- C4 (amended): in the part_000 revision, compressPDFAdaptive blocks
exactly when safety is not overridden and the projected DPI of the
governing config (custom if supplied, resolved otherwise) is below the
90 DPI legibility floor; a blocked result carries that projected DPI,
reports zero iterations and is produced with zero page render calls,
before any rasterization. In the pdfService.ts revision the gate also
runs first and blocks exactly when safety is not overridden and the
projected DPI is below its 72 DPI floor, with the DPI carried and zero
render calls, but its meta has no iterations field to report. -/
theorem safety_gate_blocked_iff :
    (∀ (passOut : ℚ → ℚ → List ℕ) (inp : Part000.CompressInput)
        (level : CompressionLevel) (ign : Bool) (cc : Option AdaptiveConfig),
      ((Part000.compressPDFAdaptive passOut inp level ign cc).result.status =
          .blocked ↔
        (ign = false ∧
          (cc.getD (Part000.getAdaptiveConfig level inp.isTextHeavy)).projectedDPI < 90)) ∧
      ((Part000.compressPDFAdaptive passOut inp level ign cc).result.status =
          .blocked →
        (Part000.compressPDFAdaptive passOut inp level ign cc).result.meta.projectedDPI =
          (cc.getD (Part000.getAdaptiveConfig level inp.isTextHeavy)).projectedDPI ∧
        (Part000.compressPDFAdaptive passOut inp level ign cc).result.meta.iterations =
          0 ∧
        (Part000.compressPDFAdaptive passOut inp level ign cc).renderCalls = 0 ∧
        (Part000.compressPDFAdaptive passOut inp level ign cc).passes = [])) ∧
    (∀ (saveOut : ℚ → ℚ → List ℕ) (inp : PdfServiceTs.CompressInput)
        (level : CompressionLevel) (ov : Bool) (cc : Option AdaptiveConfig),
      ((PdfServiceTs.compressPDFAdaptive saveOut inp level ov cc).result.status =
          .blocked ↔
        (ov = false ∧
          (cc.getD (PdfServiceTs.getAdaptiveConfig level false)).projectedDPI < 72)) ∧
      ((PdfServiceTs.compressPDFAdaptive saveOut inp level ov cc).result.status =
          .blocked →
        (PdfServiceTs.compressPDFAdaptive saveOut inp level ov cc).result.meta.projectedDPI =
          (cc.getD (PdfServiceTs.getAdaptiveConfig level false)).projectedDPI ∧
        (PdfServiceTs.compressPDFAdaptive saveOut inp level ov cc).renderCalls = 0)) := by
  constructor
  · intro passOut inp level ign cc
    by_cases h : ign = false ∧
        (cc.getD (Part000.getAdaptiveConfig level inp.isTextHeavy)).projectedDPI < 90
    · simp only [Part000.compressPDFAdaptive, if_pos h]
      simp [h]
    · simp only [Part000.compressPDFAdaptive, if_neg h]
      split_ifs <;> simp [h]
  · intro saveOut inp level ov cc
    by_cases h : ov = false ∧
        (cc.getD (PdfServiceTs.getAdaptiveConfig level false)).projectedDPI < 72
    · simp only [PdfServiceTs.compressPDFAdaptive, if_pos h]
      simp [h]
    · simp only [PdfServiceTs.compressPDFAdaptive, if_neg h]
      simp [h]

/-- C4 witness: with the low-DPI custom config and safety not
overridden, the part_000 run blocks, reports the configured DPI of 50,
zero iterations and zero render calls. -/
theorem safety_gate_blocked_iff_witness :
    (Part000.compressPDFAdaptive emptyOracle tinyInput .recommended false
        (some lowDPIConfig)).result.meta.projectedDPI = 50 ∧
    (Part000.compressPDFAdaptive emptyOracle tinyInput .recommended false
        (some lowDPIConfig)).result.meta.iterations = 0 ∧
    (Part000.compressPDFAdaptive emptyOracle tinyInput .recommended false
        (some lowDPIConfig)).renderCalls = 0 := by
  have h := safety_gate_blocked_iff.1 emptyOracle tinyInput .recommended false
    (some lowDPIConfig)
  have hb : (Part000.compressPDFAdaptive emptyOracle tinyInput .recommended false
      (some lowDPIConfig)).result.status = .blocked := by
    exact h.1.mpr (by norm_num [lowDPIConfig])
  have hc := h.2 hb
  refine ⟨?_, hc.2.1, hc.2.2.1⟩
  rw [hc.1]
  norm_num [lowDPIConfig]

/-- Helper: with a caller-supplied custom config that passes the safety
gate, exactly one rasterization pass runs, at exactly the custom scale
and quality. -/
theorem custom_config_single_pass (passOut : ℚ → ℚ → List ℕ)
    (inp : Part000.CompressInput) (level : CompressionLevel)
    (ign : Bool) (c : AdaptiveConfig)
    (hgate : ¬(ign = false ∧ c.projectedDPI < 90)) :
    (Part000.compressPDFAdaptive passOut inp level ign (some c)).passes =
      [(c.scale, c.quality)] ∧
    (Part000.compressPDFAdaptive passOut inp level ign (some c)).renderCalls =
      inp.numPages := by
  simp only [Part000.compressPDFAdaptive, Option.getD_some, Option.isNone_some,
    Part000.runLadder]
  rw [if_neg hgate]
  rw [if_neg (by simp : ¬(false = true ∧ inp.orig.length ≤ (passOut c.scale c.quality).length))]
  rw [if_neg (by simp : ¬(false = true ∧ level = .extreme ∧
    (inp.orig.length : ℚ) * 0.8 < ((passOut c.scale c.quality).length : ℚ)))]
  split_ifs <;> simp

/-- C5: in the part_000 revision, when no custom config is supplied,
the gate is open and pass 1 fails to shrink the file, the orchestrator
forms the aggressive config (scale times 0.7, quality reduced by 0.2
and floored at 0.3) and re-checks the safety gate against it: if
unsafe, pass 2 is skipped and the original bytes return; otherwise
pass 2 runs at the aggressive parameters and its output is adopted,
labeled Adaptive Fallback, exactly when strictly smaller than the
original (hence also strictly smaller than pass 1); and a
caller-supplied custom config is never escalated: exactly one pass
runs, at the custom scale and quality. -/
theorem escalation_policy (passOut : ℚ → ℚ → List ℕ)
    (inp : Part000.CompressInput) (level : CompressionLevel) (ign : Bool)
    (cfg : AdaptiveConfig)
    (hcfg : cfg = Part000.getAdaptiveConfig level inp.isTextHeavy)
    (hgate : ¬(ign = false ∧ cfg.projectedDPI < 90))
    (hfail : inp.orig.length ≤ (passOut cfg.scale cfg.quality).length) :
    ((ign = false ∧ cfg.scale * 0.7 * 72 < 90) →
      (Part000.compressPDFAdaptive passOut inp level ign none).passes =
        [(cfg.scale, cfg.quality)] ∧
      (Part000.compressPDFAdaptive passOut inp level ign none).renderCalls =
        inp.numPages ∧
      (Part000.compressPDFAdaptive passOut inp level ign none).result.data =
        inp.orig ∧
      (Part000.compressPDFAdaptive passOut inp level ign none).result.meta.strategyUsed =
        "Aborted (Safety Lock)") ∧
    (¬(ign = false ∧ cfg.scale * 0.7 * 72 < 90) →
      (Part000.compressPDFAdaptive passOut inp level ign none).passes =
        [(cfg.scale, cfg.quality),
          (cfg.scale * 0.7, max 0.3 (cfg.quality - 0.2))] ∧
      ((passOut (cfg.scale * 0.7) (max 0.3 (cfg.quality - 0.2))).length <
          inp.orig.length →
        (Part000.compressPDFAdaptive passOut inp level ign none).result.data =
          passOut (cfg.scale * 0.7) (max 0.3 (cfg.quality - 0.2)) ∧
        (Part000.compressPDFAdaptive passOut inp level ign
            none).result.meta.compressedSize =
          (passOut (cfg.scale * 0.7) (max 0.3 (cfg.quality - 0.2))).length ∧
        (passOut (cfg.scale * 0.7) (max 0.3 (cfg.quality - 0.2))).length <
          (passOut cfg.scale cfg.quality).length ∧
        (Part000.compressPDFAdaptive passOut inp level ign
            none).result.meta.strategyUsed = "Adaptive Fallback") ∧
      (inp.orig.length ≤
          (passOut (cfg.scale * 0.7) (max 0.3 (cfg.quality - 0.2))).length →
        (Part000.compressPDFAdaptive passOut inp level ign none).result.data =
          inp.orig ∧
        (Part000.compressPDFAdaptive passOut inp level ign
            none).result.meta.compressedSize = inp.orig.length)) ∧
    (∀ c : AdaptiveConfig, ¬(ign = false ∧ c.projectedDPI < 90) →
      (Part000.compressPDFAdaptive passOut inp level ign (some c)).passes =
        [(c.scale, c.quality)]) := by
  refine ⟨?_, ?_, fun c hg => (custom_config_single_pass passOut inp level ign c hg).1⟩
  · intro h2
    simp only [Part000.compressPDFAdaptive, Option.getD_none, Option.isNone_none,
      Part000.runLadder, ← hcfg]
    rw [if_neg hgate]
    rw [if_pos (⟨trivial, hfail⟩ : (True ∧ inp.orig.length ≤ (passOut cfg.scale cfg.quality).length))]
    rw [if_pos h2]
    rw [if_pos hfail]
    simp
  · intro h2
    simp only [Part000.compressPDFAdaptive, Option.getD_none, Option.isNone_none,
      Part000.runLadder, ← hcfg]
    rw [if_neg hgate]
    rw [if_pos (⟨trivial, hfail⟩ : (True ∧ inp.orig.length ≤ (passOut cfg.scale cfg.quality).length))]
    rw [if_neg h2]
    by_cases h3 : (passOut (cfg.scale * 0.7) (max 0.3 (cfg.quality - 0.2))).length <
        inp.orig.length
    · rw [if_pos h3]
      rw [if_neg (not_le.mpr h3)]
      refine ⟨rfl, fun _ => ⟨rfl, rfl, lt_of_lt_of_le h3 hfail, rfl⟩, fun h4 => absurd h3 (not_lt.mpr h4)⟩
    · rw [if_neg h3]
      rw [if_pos (le_refl inp.orig.length)]
      exact ⟨rfl, fun h4 => absurd h4 h3, fun _ => ⟨rfl, rfl⟩⟩

theorem escalation_policy_witness :
    (Part000.compressPDFAdaptive inflatingOracle twoByteInput .recommended false
        none).result.data = twoByteInput.orig ∧
    (Part000.compressPDFAdaptive inflatingOracle twoByteInput .recommended false
        none).renderCalls = twoByteInput.numPages ∧
    (Part000.compressPDFAdaptive inflatingOracle twoByteInput .recommended false
        none).result.meta.strategyUsed = "Aborted (Safety Lock)" := by
  have h := escalation_policy inflatingOracle twoByteInput .recommended false
    (Part000.getAdaptiveConfig .recommended twoByteInput.isTextHeavy) rfl
    (by norm_num [Part000.getAdaptiveConfig, toFixed2, jsRound, twoByteInput])
    (by norm_num [Part000.getAdaptiveConfig, toFixed2, jsRound, inflatingOracle,
      twoByteInput])
  have ha := h.1 ⟨rfl, by
    norm_num [Part000.getAdaptiveConfig, toFixed2, jsRound, twoByteInput]⟩
  exact ⟨ha.2.2.1, ha.2.1, ha.2.2.2⟩

/-- C9: analyzePDF returns the default profile on failure; on success
it reports the document page count, classifies text heavy exactly when
the summed fragment counts of the sampled pages exceed 20 times the
number of sampled pages (that is, the average exceeds 20), and its
output depends only on the page count and the first three pages. -/
theorem analyzePDF_spec :
    (∀ e : Unit, Part000.analyzePDF (.error e) =
      { isTextHeavy := false, pageCount := 0 }) ∧
    (∀ pdf : Part000.PdfTextDoc,
      (Part000.analyzePDF (.ok pdf)).pageCount = pdf.numPages) ∧
    (∀ pdf : Part000.PdfTextDoc,
      ((Part000.analyzePDF (.ok pdf)).isTextHeavy = true ↔
        20 * min pdf.numPages 3 <
          ((List.range (min pdf.numPages 3)).map
            (fun k => pdf.textItems (k + 1))).sum)) ∧
    (∀ pdf1 pdf2 : Part000.PdfTextDoc, pdf1.numPages = pdf2.numPages →
      (∀ i : ℕ, 1 ≤ i → i ≤ 3 → pdf1.textItems i = pdf2.textItems i) →
      Part000.analyzePDF (.ok pdf1) = Part000.analyzePDF (.ok pdf2)) := by
  refine ⟨fun e => rfl, fun pdf => rfl, fun pdf => ?_, fun pdf1 pdf2 hn hti => ?_⟩
  · simp only [Part000.analyzePDF, decide_eq_true_eq]
    rcases Nat.eq_zero_or_pos (min pdf.numPages 3) with hm | hm
    · rw [hm]
      simp
    · rw [lt_div_iff₀ (by exact_mod_cast hm)]
      constructor
      · intro h
        exact_mod_cast h
      · intro h
        exact_mod_cast h
  · simp only [Part000.analyzePDF, hn]
    have hsum : (List.range (min pdf2.numPages 3)).map
        (fun k => pdf1.textItems (k + 1)) =
        (List.range (min pdf2.numPages 3)).map
        (fun k => pdf2.textItems (k + 1)) := by
      apply List.map_congr_left
      intro k hk
      have hk3 : k < 3 := lt_of_lt_of_le (List.mem_range.mp hk)
        (min_le_right pdf2.numPages 3)
      exact hti (k + 1) (Nat.le_add_left 1 k) (by omega)
    rw [hsum]

/-- A concrete document: four pages with 30, 30, 30 and 0 text
fragments. -/
def densePdf : Part000.PdfTextDoc :=
  { numPages := 4, textItems := fun i => if i ≤ 3 then 30 else 0 }

/-- The same first three pages as densePdf but 99 fragments on page
four. -/
def densePdfAlt : Part000.PdfTextDoc :=
  { numPages := 4, textItems := fun i => if i ≤ 3 then 30 else 99 }

/-- C9 witness: the sampling-independence part applied to two concrete
documents differing only beyond page three, together with the success
projection on the first. -/
theorem analyzePDF_spec_witness :
    Part000.analyzePDF (.ok densePdf) = Part000.analyzePDF (.ok densePdfAlt) ∧
    (Part000.analyzePDF (.ok densePdf)).pageCount = densePdf.numPages := by
  refine ⟨analyzePDF_spec.2.2.2 densePdf densePdfAlt rfl ?_, analyzePDF_spec.2.1 densePdf⟩
  intro i h1 h3
  simp [densePdf, densePdfAlt, h3]

/-- C7: for every page-1 encoding that carries the 23-character JPEG
data URL header, every page count and every original size, the
projected size estimate lies between 0 and the original size. -/
theorem estimate_bounded (page1DataUrl : String) (pageCount : ℕ)
    (originalFileSize : ℕ) (heavy : Bool)
    (hlen : 23 ≤ page1DataUrl.length) :
    0 ≤ Part000.calculateProjectedFileSize page1DataUrl pageCount
        originalFileSize heavy ∧
    Part000.calculateProjectedFileSize page1DataUrl pageCount
        originalFileSize heavy ≤ (originalFileSize : ℤ) := by
  simp only [Part000.calculateProjectedFileSize]
  have h23 : (("data:image/jpeg;base64," : String).length : ℚ) = 23 := by
    norm_num [String.length]
  have hraw : (0 : ℤ) ≤
      ⌊((page1DataUrl.length : ℚ) - (("data:image/jpeg;base64," : String).length : ℚ)) * 0.75⌋ := by
    apply Int.floor_nonneg.mpr
    rw [h23]
    have : (23 : ℚ) ≤ (page1DataUrl.length : ℚ) := by exact_mod_cast hlen
    nlinarith
  set r : ℤ := ⌊((page1DataUrl.length : ℚ) - (("data:image/jpeg;base64," : String).length : ℚ)) * 0.75⌋ with hr
  have hest : (0 : ℤ) ≤ r * (pageCount : ℤ) + (2048 * (pageCount : ℤ) + 5120) := by
    have h1 : (0 : ℤ) ≤ r * (pageCount : ℤ) :=
      mul_nonneg hraw (Int.natCast_nonneg pageCount)
    have h2 : (0 : ℤ) ≤ 2048 * (pageCount : ℤ) + 5120 := by positivity
    omega
  split_ifs with hcmp
  · exact ⟨Int.natCast_nonneg originalFileSize, le_refl _⟩
  · constructor
    · apply le_min
      · apply Int.floor_nonneg.mpr
        have : (0 : ℚ) ≤ ((r * (pageCount : ℤ) + (2048 * (pageCount : ℤ) + 5120) : ℤ) : ℚ) := by
          exact_mod_cast hest
        nlinarith
      · exact Int.natCast_nonneg originalFileSize
    · exact min_le_right _ _

/-- C7 witness: a concrete JPEG data URL of 31 characters, ten pages
and a five-kilobyte original. -/
theorem estimate_bounded_witness :
    0 ≤ Part000.calculateProjectedFileSize "data:image/jpeg;base64,QUJDREVG" 10
        5000 false ∧
    Part000.calculateProjectedFileSize "data:image/jpeg;base64,QUJDREVG" 10
        5000 false ≤ ((5000 : ℕ) : ℤ) :=
  estimate_bounded "data:image/jpeg;base64,QUJDREVG" 10 5000 false (by decide)
